import Mathlib

/-!
Verification of the Session & Delivery Engine of the whatsapp-connect-v2
worker against its specification.  The definitions below are a shallow
embedding of the TypeScript sources under apps/worker and packages/logger:
pure helpers become Lean functions, database rows become records, and each
queue handler becomes an explicit state transformer returning the writes,
queue jobs and transport calls it performs.  Identifiers are modelled as
strings (opaque) or naturals (freshly generated ids); timestamps are
naturals counting milliseconds or seconds exactly as the source uses them.
-/

set_option maxRecDepth 4000

/-! ## Character-list string helpers

JavaScript string operations used by the sources, implemented over the
character lists of Lean strings so that they are kernel-reducible. -/

/-- Does the first list occur as a leading segment of the second? -/
def charsStart : List Char → List Char → Bool
  | [], _ => true
  | _ :: _, [] => false
  | p :: ps, s :: ss => p == s && charsStart ps ss

/-- Does the first list occur contiguously anywhere inside the second? -/
def charsHasSub (needle : List Char) : List Char → Bool
  | [] => charsStart needle []
  | c :: cs => charsStart needle (c :: cs) || charsHasSub needle cs

/-- JavaScript s.startsWith(pat). -/
def strStarts (s pat : String) : Bool := charsStart pat.data s.data

/-- JavaScript s.endsWith(pat). -/
def strEnds (s pat : String) : Bool := charsStart pat.data.reverse s.data.reverse

/-- JavaScript s.includes(pat) (contiguous substring test). -/
def strHasSub (s pat : String) : Bool := charsHasSub pat.data s.data

/-- Lower-case a string character by character (model of toLowerCase for the
ASCII patterns the sources match). -/
def strLower (s : String) : String := String.mk (s.data.map Char.toLower)

/-- JavaScript s.trim(): drop whitespace from both ends. -/
def strTrim (s : String) : String :=
  String.mk (((s.data.dropWhile Char.isWhitespace).reverse.dropWhile Char.isWhitespace).reverse)

/-- JavaScript Array.prototype.join(' '). -/
def joinSpace : List String → String
  | [] => ""
  | [s] => s
  | s :: rest => s ++ " " ++ joinSpace rest

/-- JavaScript truthiness of an optional string: present and non-empty. -/
def strTruthy : Option String → Bool
  | none => false
  | some s => s != ""

/-- JavaScript a || b on two optional strings: keep a when truthy. -/
def jsOr (a b : Option String) : Option String := if strTruthy a then a else b

/-! ## Baileys jid helpers

Models of the jid utilities imported by apps/worker/src/wa/normalize.ts from
the @whiskeysockets/baileys library (external to this repository): jidDecode
splits at the first at-sign and takes the user part before the first colon,
jidNormalizedUser re-encodes user and server (mapping the legacy c.us server
to s.whatsapp.net), the group/broadcast tests look at the server suffix, and
getChatId resolves the chat of a message key, using the participant for
non-status broadcast chats. -/

/-- Model of Baileys jidDecode restricted to the (user, server) pair that
jidNormalizedUser consumes. -/
def jidDecode (jid : String) : Option (String × String) :=
  let cs := jid.data
  let userCombined := cs.takeWhile (fun c => c != '@')
  match cs.dropWhile (fun c => c != '@') with
  | [] => none
  | _ :: serverCs =>
    some (String.mk (userCombined.takeWhile (fun c => c != ':')), String.mk serverCs)

/-- Model of Baileys jidEncode for a user with no agent or device. -/
def jidEncode (user server : String) : String :=
  String.mk (user.data ++ '@' :: server.data)

/-- Model of Baileys jidNormalizedUser: strip device and resource suffixes,
map the c.us server to s.whatsapp.net, and return the empty string when the
input has no at-sign. -/
def jidNormalizedUser (jid : String) : String :=
  match jidDecode jid with
  | none => ""
  | some (user, server) =>
    jidEncode user (if server = "c.us" then "s.whatsapp.net" else server)

/-- Model of Baileys isJidGroup. -/
def isJidGroup (jid : String) : Bool := strEnds jid "@g.us"

/-- Model of Baileys isJidBroadcast. -/
def isJidBroadcast (jid : String) : Bool := strEnds jid "@broadcast"

/-! ## Message envelopes (normalize.ts input) -/

/-- Message key of a raw inbound envelope. -/
structure MessageKey where
  id : Option String := none
  remoteJid : Option String := none
  fromMe : Bool := false
  participant : Option String := none
  senderPn : Option String := none
  deriving Repr, DecidableEq

/-- Media descriptor inside a raw message (image, video, audio or document
variants share this shape; fileLength is already stringified). -/
structure MediaMsg where
  mimetype : Option String := none
  caption : Option String := none
  fileLength : Option String := none
  fileName : Option String := none
  deriving Repr, DecidableEq

/-- Decoded message content of a raw envelope. -/
structure MsgContent where
  conversation : Option String := none
  extendedTextMessageText : Option String := none
  imageMessage : Option MediaMsg := none
  videoMessage : Option MediaMsg := none
  audioMessage : Option MediaMsg := none
  documentMessage : Option MediaMsg := none
  deriving Repr, DecidableEq

/-- Raw inbound envelope (proto.IWebMessageInfo restricted to the fields
normalize.ts and inbound.ts read). The messageTimestamp is the numeric value
in seconds (number and Long inputs are unified to one integer). -/
structure WebMessageInfo where
  key : Option MessageKey := none
  message : Option MsgContent := none
  messageStubType : Option Nat := none
  messageStubParameters : Option (List String) := none
  messageTimestamp : Option Int := none
  deriving Repr, DecidableEq

/-- Model of Baileys getChatId: for a broadcast chat other than the status
broadcast, the chat is the participant when present; otherwise the raw
remoteJid. -/
def getChatId (k : MessageKey) : Option String :=
  match k.remoteJid with
  | none => none
  | some r =>
    if isJidBroadcast r && r != "status@broadcast" && strTruthy k.participant then
      k.participant
    else some r

/-- getText of normalize.ts: first of conversation, extendedTextMessage.text,
imageMessage.caption, videoMessage.caption (nullish coalescing). -/
def getText (m : Option MsgContent) : Option String :=
  match m with
  | none => none
  | some c =>
    (c.conversation <|> c.extendedTextMessageText
      <|> (c.imageMessage.bind (·.caption)) <|> (c.videoMessage.bind (·.caption)))

/-- Media summary produced by getMediaMeta of normalize.ts. -/
structure MediaMeta where
  kind : String
  mimetype : Option String := none
  fileLength : Option String := none
  fileName : Option String := none
  deriving Repr, DecidableEq

/-- getMediaMeta of normalize.ts: image, then video, then audio, then
document. -/
def getMediaMeta (m : Option MsgContent) : Option MediaMeta :=
  match m with
  | none => none
  | some c =>
    match c.imageMessage with
    | some im => some { kind := "image", mimetype := im.mimetype, fileLength := im.fileLength }
    | none =>
      match c.videoMessage with
      | some v => some { kind := "video", mimetype := v.mimetype, fileLength := v.fileLength }
      | none =>
        match c.audioMessage with
        | some a => some { kind := "audio", mimetype := a.mimetype, fileLength := a.fileLength }
        | none =>
          match c.documentMessage with
          | some d =>
            some { kind := "document", mimetype := d.mimetype,
                   fileName := d.fileName, fileLength := d.fileLength }
          | none => none

/-- Content classification of a normalized message. -/
inductive ContentType
  | text
  | media
  | stub
  | unknown
  deriving Repr, DecidableEq

/-- content field of a NormalizedInboundMessage. -/
structure NormalizedContent where
  type : ContentType
  text : Option String
  media : Option MediaMeta
  deriving Repr, DecidableEq

/-- Output of the normalizer (normalize.ts), kind is always
inbound_message.  The source field named from is called fromAddr here
because from is reserved in Lean. -/
structure NormalizedInboundMessage where
  messageId : String
  fromAddr : String
  replyToJid : String
  remoteJid : String
  senderPn : Option String
  toAddr : Option String
  timestamp : Option Int
  content : NormalizedContent
  deriving Repr, DecidableEq

/-- Chat id of an envelope: getChatId of the key when a key is present, else
the empty string. -/
def chatIdOf (m : WebMessageInfo) : Option String :=
  match m.key with
  | none => some ""
  | some k => getChatId k

/-- senderPn surfaced by the transport on the message key. -/
def senderPnOf (m : WebMessageInfo) : Option String := m.key.bind (·.senderPn)

/-- The 1:1 test of normalize.ts: the chat id is truthy and neither a group
nor a broadcast jid. -/
def isOneToOneOf (m : WebMessageInfo) : Bool :=
  match chatIdOf m with
  | none => false
  | some c => c != "" && !isJidGroup c && !isJidBroadcast c

/-- normalizeInboundMessage of apps/worker/src/wa/normalize.ts. -/
def normalizeInboundMessage (m : WebMessageInfo) (deviceJid : Option String) :
    NormalizedInboundMessage :=
  let key := m.key
  let messageId := (key.bind (·.id)).getD ""
  let chatId := chatIdOf m
  let isOneToOne := isOneToOneOf m
  let senderPn := senderPnOf m
  let ternary : Option String :=
    if isOneToOne && strTruthy senderPn then senderPn else chatId
  let remoteJidOpt := key.bind (·.remoteJid)
  let replyToJid : String := (jsOr ternary remoteJidOpt).getD ""
  let normalizedUser := jidNormalizedUser replyToJid
  let fromAddr : String :=
    if normalizedUser != "" then normalizedUser
    else if replyToJid != "" then replyToJid
    else remoteJidOpt.getD ""
  let text0 := getText m.message
  let media := getMediaMeta m.message
  let stubParamCount : Nat := (m.messageStubParameters.map (·.length)).getD 0
  let isStub := text0.isNone && media.isNone &&
    (m.messageStubType.isSome || decide (0 < stubParamCount))
  let text1 : Option String :=
    if isStub && decide (0 < stubParamCount) then
      let joined := strTrim (joinSpace (m.messageStubParameters.getD []))
      if joined = "" then none else some joined
    else text0
  let contentType : ContentType :=
    if strTruthy text1 && !isStub then .text
    else if media.isSome then .media
    else if isStub then .stub
    else .unknown
  { messageId := messageId
    fromAddr := fromAddr
    replyToJid := replyToJid
    remoteJid := remoteJidOpt.getD ""
    senderPn := senderPn
    toAddr := deviceJid
    timestamp := m.messageTimestamp
    content := { type := contentType, text := if strTruthy text1 then text1 else none,
                 media := media } }

/-! ## Data model rows

Records mirroring the Prisma rows the worker touches.  Status enums follow
the schema; the PENDING status and attempts = 0 of a freshly created
WebhookDelivery are the schema column defaults (the Prisma schema itself is
not among the sources, so those two defaults are taken from the spec). -/

/-- Device.status values. -/
inductive DeviceStatus
  | OFFLINE
  | QR
  | ONLINE
  | ERROR
  deriving Repr, DecidableEq

/-- The string the source interpolates for a DeviceStatus. -/
def deviceStatusStr : DeviceStatus → String
  | .OFFLINE => "OFFLINE"
  | .QR => "QR"
  | .ONLINE => "ONLINE"
  | .ERROR => "ERROR"

/-- WebhookDelivery.status values. -/
inductive DeliveryStatus
  | PENDING
  | SUCCESS
  | FAILED
  | DLQ
  deriving Repr, DecidableEq

/-- OutboundMessage.status values. -/
inductive OutboundStatus
  | QUEUED
  | PROCESSING
  | SENT
  | FAILED
  deriving Repr, DecidableEq

/-- Device row (fields the worker reads and writes). -/
structure Device where
  id : String
  tenantId : String
  status : DeviceStatus
  qr : Option String := none
  lastError : Option String := none
  lastSeenAt : Option Nat := none
  deriving Repr, DecidableEq

/-- WebhookEndpoint row. -/
structure WebhookEndpoint where
  id : String
  tenantId : String
  url : String
  secret : String
  enabled : Bool
  deriving Repr, DecidableEq

/-- PublicQrLink row. -/
structure PublicQrLink where
  id : String
  deviceId : String
  token : String
  expiresAt : Nat
  deriving Repr, DecidableEq

/-- normalizedJson of an Event: the normalized message, optionally extended
with the decryptionFailed flag (the stub path spreads the normalized object
and adds decryptionFailed true). -/
structure EventPayload where
  base : NormalizedInboundMessage
  decryptionFailed : Bool
  deriving Repr, DecidableEq

/-- Event row created by the inbound pipeline; ids are freshly generated
naturals, rawJson is the envelope preserved verbatim (the JSON round trip
through BufferJSON is modelled as the identity). -/
structure EventRow where
  id : Nat
  tenantId : String
  deviceId : String
  type : String
  normalizedJson : EventPayload
  rawJson : WebMessageInfo
  deriving Repr, DecidableEq

/-- WebhookDelivery row as created by the fan-out (status and attempts are
the schema defaults PENDING and 0; the create passes only endpointId and
eventId). -/
structure DeliveryRowCreated where
  id : Nat
  endpointId : String
  eventId : Nat
  status : DeliveryStatus
  attempts : Nat
  deriving Repr, DecidableEq

/-- webhook_dispatch job options used by inbound.ts when enqueueing
deliver jobs. -/
structure WebhookJobSpec where
  deliveryId : Nat
  attempts : Nat
  backoffExponentialDelayMs : Nat
  deriving Repr, DecidableEq

/-- OutboundMessage row created for the optional inbound ack. -/
structure OutboundRowCreated where
  id : Nat
  tenantId : String
  deviceId : String
  toJid : String
  type : String
  payloadText : String
  isTest : Bool
  deriving Repr, DecidableEq

/-- outbound_messages job options used by inbound.ts for the ack. -/
structure OutboundJobSpec where
  outboundMessageId : Nat
  attempts : Nat
  backoffExponentialDelayMs : Nat
  deriving Repr, DecidableEq

/-! ## Inbound pipeline (inbound.ts, handleMessagesUpsert) -/

/-- toJid of inbound.ts: pass a jid through, else keep only digits and
append the s.whatsapp.net server. -/
def toJid (dest : String) : String :=
  if dest = "" then dest
  else if strHasSub dest "@" then dest
  else String.mk (dest.data.filter Char.isDigit) ++ "@s.whatsapp.net"

/-- The decryption-failure stub test of inbound.ts: the stub text matches
one of three patterns, case-insensitively and anywhere in the text. -/
def decryptionFailureMatch (stubText : String) : Bool :=
  let t := strLower stubText
  strHasSub t "no matching sessions found for message" ||
  strHasSub t "bad mac" ||
  strHasSub t "failed to decrypt message"

/-- Reconcile signal returned by handleMessagesUpsert on a decryption
failure stub (clearSenderAndReconnect). -/
structure ClearSignal where
  remoteJid : String
  senderPn : Option String
  deriving Repr, DecidableEq

/-- Everything one call of the inbound pipeline persists or enqueues. -/
structure MsgEffects where
  events : List EventRow := []
  deliveries : List DeliveryRowCreated := []
  webhookJobs : List WebhookJobSpec := []
  ackRows : List OutboundRowCreated := []
  ackJobs : List OutboundJobSpec := []
  lastSeenUpdates : Nat := 0
  signal : Option ClearSignal := none
  deriving Repr, DecidableEq

/-- Fan-out loop of inbound.ts: one WebhookDelivery row (schema defaults
PENDING, 0) and one webhook_dispatch deliver job with attempts 5 and
exponential backoff of base 1000 ms per endpoint, with fresh delivery
ids. Returns the rows, the jobs and the next fresh id. -/
def fanOut (eventId : Nat) (endpoints : List WebhookEndpoint) (nextId : Nat) :
    List DeliveryRowCreated × List WebhookJobSpec × Nat :=
  match endpoints with
  | [] => ([], [], nextId)
  | ep :: rest =>
    let d : DeliveryRowCreated :=
      { id := nextId, endpointId := ep.id, eventId := eventId,
        status := .PENDING, attempts := 0 }
    let j : WebhookJobSpec :=
      { deliveryId := nextId, attempts := 5, backoffExponentialDelayMs := 1000 }
    let (ds, js, n) := fanOut eventId rest (nextId + 1)
    (d :: ds, j :: js, n)

/-- Body of the per-message loop of handleMessagesUpsert (inbound.ts):
filters, normalizes, handles the stub path (decryption-failure event plus
reconcile signal, or drop with lastSeenAt bookkeeping) and the happy path
(Event, fan-out, optional ack outbound).  ackText is the trimmed
WORKER_INBOUND_ACK_MESSAGE environment value. -/
def processInboundMessage (device : Device) (endpoints : List WebhookEndpoint)
    (ackText : Option String) (sockUserId : Option String)
    (msg : WebMessageInfo) (nextId : Nat) : MsgEffects × Nat :=
  match msg.key with
  | none => ({}, nextId)
  | some k =>
    match k.remoteJid with
    | none => ({}, nextId)
    | some r =>
      if r = "" then ({}, nextId)
      else if k.fromMe then ({}, nextId)
      else if r = "status@broadcast" then ({}, nextId)
      else
        let normalized := normalizeInboundMessage msg sockUserId
        if normalized.content.type = .stub then
          let stubText := normalized.content.text.getD ""
          if decryptionFailureMatch stubText then
            let payload : EventPayload :=
              { base :=
                  { normalized with
                    fromAddr := if normalized.fromAddr != "" then normalized.fromAddr else r },
                decryptionFailed := true }
            let ev : EventRow :=
              { id := nextId, tenantId := device.tenantId, deviceId := device.id,
                type := "message.inbound", normalizedJson := payload, rawJson := msg }
            let (ds, js, n) := fanOut ev.id endpoints (nextId + 1)
            ({ events := [ev], deliveries := ds, webhookJobs := js,
               lastSeenUpdates := 1,
               signal := some { remoteJid := r, senderPn := k.senderPn } }, n)
          else
            ({ lastSeenUpdates := 1 }, nextId)
        else
          let ev : EventRow :=
            { id := nextId, tenantId := device.tenantId, deviceId := device.id,
              type := "message.inbound",
              normalizedJson := { base := normalized, decryptionFailed := false },
              rawJson := msg }
          let (ds, js, n) := fanOut ev.id endpoints (nextId + 1)
          let (ackRows, ackJobs, n2) :=
            if strTruthy (ackText.map strTrim) && normalized.fromAddr != "" then
              let row : OutboundRowCreated :=
                { id := n, tenantId := device.tenantId, deviceId := device.id,
                  toJid := toJid normalized.fromAddr, type := "text",
                  payloadText := strTrim (ackText.getD ""), isTest := false }
              ([row], [{ outboundMessageId := n, attempts := 3,
                         backoffExponentialDelayMs := 1000 : OutboundJobSpec }], n + 1)
            else ([], [], n)
          ({ events := [ev], deliveries := ds, webhookJobs := js,
             ackRows := ackRows, ackJobs := ackJobs, lastSeenUpdates := 1 }, n2)

/-- Append the effects of one message to the accumulated effects of the
loop; the reconcile signal variable is overwritten whenever a later message
sets it. -/
def appendEffects (acc eff : MsgEffects) : MsgEffects :=
  { events := acc.events ++ eff.events
    deliveries := acc.deliveries ++ eff.deliveries
    webhookJobs := acc.webhookJobs ++ eff.webhookJobs
    ackRows := acc.ackRows ++ eff.ackRows
    ackJobs := acc.ackJobs ++ eff.ackJobs
    lastSeenUpdates := acc.lastSeenUpdates + eff.lastSeenUpdates
    signal := match eff.signal with
      | some s => some s
      | none => acc.signal }

/-- Database slice read by handleMessagesUpsert. -/
structure Db where
  devices : List Device
  endpoints : List WebhookEndpoint
  deriving Repr, DecidableEq

/-- prisma.device.findUnique on id. -/
def findDevice (db : Db) (deviceId : String) : Option Device :=
  db.devices.find? (fun d => d.id == deviceId)

/-- The endpoints snapshot of handleMessagesUpsert: enabled endpoints of
the device tenant. -/
def enabledEndpointsOf (db : Db) (device : Device) : List WebhookEndpoint :=
  db.endpoints.filter (fun e => e.tenantId == device.tenantId && e.enabled)

/-- handleMessagesUpsert of apps/worker/src/wa/inbound.ts: load the device,
snapshot the enabled endpoints of its tenant, then run the per-message loop
over the batch, threading fresh ids and accumulating effects.  Returns the
combined effects (whose signal field is the MessagesUpsertResult) and the
next fresh id. -/
def handleMessagesUpsert (db : Db) (deviceId : String) (sockUserId : Option String)
    (ackText : Option String) (messages : List WebMessageInfo) (nextId : Nat) :
    MsgEffects × Nat :=
  match findDevice db deviceId with
  | none => ({}, nextId)
  | some device =>
    let endpoints := enabledEndpointsOf db device
    messages.foldl
      (fun (st : MsgEffects × Nat) msg =>
        let (eff, n) := processInboundMessage device endpoints ackText sockUserId msg st.2
        (appendEffects st.1 eff, n))
      ({}, nextId)

/-! ## Session manager reaction to the upsert result (sessionManager.ts) -/

/-- Per-session entry of the live-session map (socket handle elided). -/
structure SessionEntry where
  closing : Bool
  deriving Repr, DecidableEq

/-- Actions taken by the messages.upsert subscriber of SessionManager.connect
after handleMessagesUpsert returns: on a clearSenderAndReconnect signal it
calls clearSessionsForJids with the non-empty jids, and when a live
non-closing entry exists it marks it closing, removes it, ends the socket
and schedules connect after 5000 ms. -/
structure ManagerActions where
  clearedJids : Option (List String) := none
  socketTornDown : Bool := false
  reconnectDelayMs : Option Nat := none
  deriving Repr, DecidableEq

/-- Reaction of the messages.upsert handler in SessionManager.connect to the
result of handleMessagesUpsert. -/
def managerReaction (sessions : List (String × SessionEntry)) (deviceId : String)
    (signal : Option ClearSignal) : ManagerActions :=
  match signal with
  | none => {}
  | some s =>
    let jids := (s.remoteJid :: s.senderPn.toList).filter (fun j => j != "")
    match sessions.find? (fun e => e.1 == deviceId) with
    | some (_, entry) =>
      if entry.closing then { clearedJids := some jids }
      else { clearedJids := some jids, socketTornDown := true,
             reconnectDelayMs := some 5000 }
    | none => { clearedJids := some jids }

/-! ## Webhook dispatch worker (webhookDispatch.ts) -/

/-- Mutable fields of a WebhookDelivery row that the dispatcher updates. -/
structure DeliveryState where
  status : DeliveryStatus
  attempts : Nat
  lastError : Option String
  nextRetryAt : Option Nat
  deriving Repr, DecidableEq

/-- A WebhookDelivery row as created by the fan-out: schema defaults
status PENDING, attempts 0, no lastError, no nextRetryAt. -/
def initialDeliveryState : DeliveryState :=
  { status := .PENDING, attempts := 0, lastError := none, nextRetryAt := none }

/-- The update performed on a 2xx webhook response: status SUCCESS, attempts
incremented by one, lastError and nextRetryAt cleared. -/
def applyDeliverSuccess (r : DeliveryState) : DeliveryState :=
  { status := .SUCCESS, attempts := r.attempts + 1, lastError := none,
    nextRetryAt := none }

/-- The update performed by the failed hook of the webhook_dispatch worker:
attempts is attemptsMade + 1; below the job max the row becomes FAILED with
nextRetryAt now + 2 ^ attempts seconds, otherwise DLQ with no retry time. -/
def applyWebhookFailedHook (maxAttempts attemptsMade nowMs : Nat) (errMsg : String)
    (_r : DeliveryState) : DeliveryState :=
  let attempts := attemptsMade + 1
  if attempts < maxAttempts then
    { status := .FAILED, attempts := attempts, lastError := some errMsg,
      nextRetryAt := some (nowMs + 2 ^ attempts * 1000) }
  else
    { status := .DLQ, attempts := attempts, lastError := some errMsg,
      nextRetryAt := none }

/-- One run of a deliver job as it affects the delivery row: a run that
skips (row missing or endpoint disabled) writes nothing, a 2xx response
applies the success update, a failure triggers the failed hook. -/
inductive WebhookDeliveryOp
  | skipRun
  | success
  | failure (attemptsMade nowMs : Nat) (errMsg : String)
  deriving Repr, DecidableEq

/-- Apply one deliver-job outcome to the row. -/
def applyWebhookOp (maxAttempts : Nat) (r : DeliveryState) : WebhookDeliveryOp → DeliveryState
  | .skipRun => r
  | .success => applyDeliverSuccess r
  | .failure attemptsMade nowMs errMsg =>
    applyWebhookFailedHook maxAttempts attemptsMade nowMs errMsg r

/-- Fold a sequence of deliver-job outcomes over a row. -/
def runWebhookOps (maxAttempts : Nat) (ops : List WebhookDeliveryOp)
    (r : DeliveryState) : DeliveryState :=
  ops.foldl (applyWebhookOp maxAttempts) r

/-! ## Outbound messages worker (outbound_messages send jobs) -/

/-- OutboundMessage row as the send worker reads it.  payloadText is the
text field of payloadJson when present and a string (a missing or
non-string text is none). -/
structure OutboundRow where
  id : String
  tenantId : String
  deviceId : String
  toJid : String
  type : String
  payloadText : Option String
  status : OutboundStatus
  error : Option String := none
  deriving Repr, DecidableEq

/-- Outcome the transport produces for a sendMessage call: the provider
message id on success, the error message on a throw. -/
inductive SendOutcome
  | sent (providerMessageId : Option String)
  | raisedErr (msg : String)
  deriving Repr, DecidableEq

/-- Socket state the send worker consults: the authenticated user id and
the outcome the transport would produce for a send. -/
structure SockState where
  userId : Option String
  sendOutcome : SendOutcome
  deriving Repr, DecidableEq

/-- A write the worker performs on the OutboundMessage row. -/
inductive RowWrite
  | processing
  | failed (error : String)
  | sentWrite (providerMessageId : Option String)
  deriving Repr, DecidableEq

/-- How a job run ends: a plain return is terminal (no retry); a thrown
error is handed to the queue for retry and the failed hook. -/
inductive JobOutcome
  | completed
  | thrown (msg : String)
  deriving Repr, DecidableEq

/-- Observable trace of one send job. -/
structure OutboundTrace where
  writes : List RowWrite := []
  presenceCalls : Nat := 0
  sendCalls : Nat := 0
  outcome : JobOutcome := .completed
  deriving Repr, DecidableEq

/-- The send-job processor of the outbound_messages worker: load the row,
set PROCESSING, check device presence and ONLINE status, socket presence
and authentication, the text type and payload, then send (composing
presence, delay, sendMessage, paused presence) and record SENT, throwing on
a transport error. -/
def runOutboundSendJob (row? : Option OutboundRow) (device? : Option Device)
    (sock? : Option SockState) : OutboundTrace :=
  match row? with
  | none => {}
  | some row =>
    let afterProcessing : List RowWrite := [.processing]
    match device? with
    | none => { writes := afterProcessing ++ [.failed "device_not_found"] }
    | some device =>
      if device.status ≠ .ONLINE then
        { writes := afterProcessing ++
            [.failed ("device_not_online:" ++ deviceStatusStr device.status)] }
      else
        match sock? with
        | none => { writes := afterProcessing ++ [.failed "device_not_connected"] }
        | some sock =>
          if ¬ strTruthy sock.userId then
            { writes := afterProcessing ++ [.failed "socket_not_authenticated"] }
          else if row.type ≠ "text" then
            { writes := afterProcessing ++
                [.failed ("unsupported_type:" ++ row.type)] }
          else
            match row.payloadText with
            | none =>
              { writes := afterProcessing, outcome := .thrown "payload.text required" }
            | some text =>
              if text = "" then
                { writes := afterProcessing, outcome := .thrown "payload.text required" }
              else
                match sock.sendOutcome with
                | .sent pmid =>
                  { writes := afterProcessing ++ [.sentWrite pmid],
                    presenceCalls := 2, sendCalls := 1 }
                | .raisedErr e =>
                  { writes := afterProcessing, presenceCalls := 1, sendCalls := 1,
                    outcome := .thrown e }

/-- Status a row write leaves on the row. -/
def rowWriteStatus : RowWrite → OutboundStatus
  | .processing => .PROCESSING
  | .failed _ => .FAILED
  | .sentWrite _ => .SENT

/-- Status history of an OutboundMessage over a job run: the initial status
followed by the statuses of the writes in order. -/
def statusHistory (initial : OutboundStatus) (t : OutboundTrace) : List OutboundStatus :=
  initial :: t.writes.map rowWriteStatus

/-! ## Connection open handler (sessionManager.ts, connection.update open) -/

/-- Result of the open branch of the connection.update handler: the device
row update and the updateMany over the PublicQrLink rows. -/
def onConnectionOpen (deviceId : String) (now : Nat) (device : Device)
    (links : List PublicQrLink) : Device × List PublicQrLink :=
  ({ device with
      status := .ONLINE, qr := none, lastSeenAt := some now,
      lastError := none },
   links.map (fun l =>
     if l.deviceId == deviceId && decide (now < l.expiresAt) then
       { l with expiresAt := now }
     else l))

/-- Validity predicate of a PublicQrLink at a read time (spec I8). -/
def qrLinkValid (t : Nat) (l : PublicQrLink) : Prop := t ≤ l.expiresAt

instance (t : Nat) (l : PublicQrLink) : Decidable (qrLinkValid t l) :=
  inferInstanceAs (Decidable (t ≤ l.expiresAt))

/-! ## Reconnect sweep (deviceCommands.ts) -/

/-- WORKER_RECONNECT_ALL_DELAY_MS resolution: the configured value or the
default 5000 (the Number conversion is modelled on the parsed value). -/
def workerReconnectDelayMs (env : Option Nat) : Nat := env.getD 5000

/-- WORKER_RECONNECT_STAGGER_MS resolution: the configured value or the
default 800. -/
def workerReconnectStaggerMs (env : Option Nat) : Nat := env.getD 800

/-- Devices selected by the sweep: those with a persisted WaSession row
(prisma.device.findMany where session isNot null), in table order. -/
def sweepDevices (devices : List Device) (waSessions : List (String × String)) :
    List String :=
  (devices.filter (fun d => waSessions.any (fun s => s.1 == d.id))).map (fun d => d.id)

/-- Observable trace of the sweep loop. -/
structure SweepTrace where
  connects : List String := []
  waits : List Nat := []
  failuresLogged : List String := []
  deriving Repr, DecidableEq

/-- The loop of the reconnect sweep over the selected device ids: a device
with a live session is skipped outright; otherwise connect is attempted (a
failure is logged and does not abort the loop), and after every attempt
other than the one at the last index the loop sleeps for the positive
stagger interval. -/
def sweepLoop (live : List String) (connectFails : String → Bool) (staggerMs : Nat) :
    List String → SweepTrace
  | [] => {}
  | [d] =>
    if live.contains d then {}
    else { connects := [d],
           failuresLogged := if connectFails d then [d] else [] }
  | d :: e :: rest =>
    if live.contains d then sweepLoop live connectFails staggerMs (e :: rest)
    else
      let t := sweepLoop live connectFails staggerMs (e :: rest)
      { connects := d :: t.connects,
        waits := (if 0 < staggerMs then [staggerMs] else []) ++ t.waits,
        failuresLogged := (if connectFails d then [d] else []) ++ t.failuresLogged }

/-- The whole sweep as scheduled at worker startup: after the startup delay
it reconnects every device with a persisted session, staggering the
attempts. -/
def reconnectSweep (envDelay envStagger : Option Nat) (devices : List Device)
    (waSessions : List (String × String)) (live : List String)
    (connectFails : String → Bool) : Nat × SweepTrace :=
  (workerReconnectDelayMs envDelay,
   sweepLoop live connectFails (workerReconnectStaggerMs envStagger)
     (sweepDevices devices waSessions))

/-! ## Auth-state store (authStateDb.ts, clearSessionsForJids)

The function rewrites the persisted WaSession row of one device: it
decrypts the blob, removes the key-bucket entries belonging to the given
jids, and re-encrypts.  Encryption, JSON serialization and parsing happen
in external libraries (node crypto and JSON with BufferJSON), so they are
abstracted into an enc / dec oracle pair over the decoded payload. -/

/-- Decoded WaSession payload: opaque serialized creds plus the key
buckets, a bucket being a name with its id-to-value entries. -/
structure AuthBlob where
  creds : String
  keysData : List (String × List (String × String))
  deriving Repr, DecidableEq

/-- The user part of a jid: everything before the first at-sign (the whole
string when there is no at-sign), as split('@')[0] produces. -/
def userPartOfJid (jid : String) : String :=
  String.mk (jid.data.takeWhile (fun c => c != '@'))

/-- User parts extracted by clearSessionsForJids: keep truthy jids, take
the user part, keep the non-empty ones. -/
def userPartsOf (jids : List String) : List String :=
  ((jids.filter (fun j => j != "")).map userPartOfJid).filter (fun u => u != "")

/-- matchesSessionId of clearSessionsForJids: the entry id equals the user
part or extends it with a colon or a dot. -/
def matchesSessionId (id userPart : String) : Bool :=
  id == userPart || strStarts id (userPart ++ ":") || strStarts id (userPart ++ ".")

/-- Clean one bucket of the keysData per clearSessionsForJids: in the
session and sessions buckets drop the entries whose id matches some user
part, in the sender-key bucket drop the entries whose key contains some
user part, leave every other bucket alone. -/
def cleanBucket (userParts : List String) (bucket : String)
    (entries : List (String × String)) : List (String × String) :=
  if bucket = "session" || bucket = "sessions" then
    entries.filter (fun e => !(userParts.any (fun u => matchesSessionId e.1 u)))
  else if bucket = "sender-key" then
    entries.filter (fun e => !(userParts.any (fun u => strHasSub e.1 u)))
  else entries

/-- keysData after the removal loop of clearSessionsForJids. -/
def cleanKeysData (userParts : List String)
    (keysData : List (String × List (String × String))) :
    List (String × List (String × String)) :=
  keysData.map (fun b => (b.1, cleanBucket userParts b.1 b.2))

/-- prisma.waSession.findUnique on deviceId over the table of
(deviceId, authStateEnc) rows. -/
def findWaSession (table : List (String × String)) (deviceId : String) :
    Option String :=
  (table.find? (fun r => r.1 == deviceId)).map (fun r => r.2)

/-- Result of clearSessionsForJids: the table after the call and whether an
upsert was issued. -/
structure ClearSessionsResult where
  table : List (String × String)
  wrote : Bool
  deriving Repr, DecidableEq

/-- clearSessionsForJids of apps/worker/src/wa/authStateDb.ts over the
WaSession table, parameterized by the decrypt-and-parse oracle dec and the
serialize-and-encrypt oracle enc: returns without writing when no jid
yields a user part, when the device has no row (or an empty blob), when the
blob does not decrypt, or when nothing matched; otherwise upserts the row
with the unchanged creds and the cleaned buckets re-encrypted. -/
def clearSessionsForJids (dec : String → Option AuthBlob) (enc : AuthBlob → String)
    (table : List (String × String)) (deviceId : String) (jids : List String) :
    ClearSessionsResult :=
  let userParts := userPartsOf jids
  if userParts.isEmpty then { table := table, wrote := false }
  else
    match findWaSession table deviceId with
    | none => { table := table, wrote := false }
    | some blob =>
      if blob = "" then { table := table, wrote := false }
      else
        match dec blob with
        | none => { table := table, wrote := false }
        | some parsed =>
          let cleaned := cleanKeysData userParts parsed.keysData
          if cleaned == parsed.keysData then { table := table, wrote := false }
          else
            let newBlob := enc { creds := parsed.creds, keysData := cleaned }
            if (table.find? (fun r => r.1 == deviceId)).isSome then
              { table := table.map (fun r => if r.1 == deviceId then (r.1, newBlob) else r),
                wrote := true }
            else
              { table := table ++ [(deviceId, newBlob)], wrote := true }

/-! ## Structured logger (packages/logger, DatabaseLogger.log)

Two variants of the private log method exist in the package: the earlier
one persists only ERROR calls, the current one persists ERROR and INFO
calls.  Both always write to the console first and swallow database
failures (reporting them on the console). -/

/-- Log levels of the logger. -/
inductive LogLevel
  | DEBUG
  | INFO
  | WARN
  | ERROR
  deriving Repr, DecidableEq

/-- Which variant of DatabaseLogger.log is in effect. -/
inductive LoggerVariant
  | errorOnly
  | errorAndInfo
  deriving Repr, DecidableEq

/-- Log row written by prisma.log.create. -/
structure LogRow where
  level : LogLevel
  service : String
  message : String
  error : Option String
  deriving Repr, DecidableEq

/-- Whether the variant persists the level to the database: the earlier
variant returns early unless ERROR, the current one unless ERROR or
INFO. -/
def logPersists (variant : LoggerVariant) (level : LogLevel) : Bool :=
  match variant with
  | .errorOnly => level == .ERROR
  | .errorAndInfo => level == .ERROR || level == .INFO

/-- Observable outcome of one DatabaseLogger.log call. -/
structure LogOutcome where
  dbRow : Option LogRow
  failureReportedOnConsole : Bool
  raisedToCaller : Bool
  deriving Repr, DecidableEq

/-- DatabaseLogger.log of packages/logger/src/index.ts: console output
always happens; non-persisted levels return before touching the database;
a persisted level attempts prisma.log.create, and a create failure is
caught and reported on the console instead of being rethrown.  dbWriteOk
says whether the create would succeed. -/
def dbLoggerLog (variant : LoggerVariant) (service : String) (level : LogLevel)
    (message : String) (error : Option String) (dbWriteOk : Bool) : LogOutcome :=
  if !logPersists variant level then
    { dbRow := none, failureReportedOnConsole := false, raisedToCaller := false }
  else if dbWriteOk then
    { dbRow := some { level := level, service := service, message := message,
                      error := error },
      failureReportedOnConsole := false, raisedToCaller := false }
  else
    { dbRow := none, failureReportedOnConsole := true, raisedToCaller := false }

/-! ## Theorems -/

/-- Invariant of the webhook delivery row (spec P3). -/
def deliveryInvariant (r : DeliveryState) : Prop :=
  (r.status = .SUCCESS → r.lastError = none ∧ r.nextRetryAt = none) ∧
  (r.status = .DLQ → 5 ≤ r.attempts)

theorem applyWebhookOp_invariant (r : DeliveryState) (op : WebhookDeliveryOp)
    (h : deliveryInvariant r) : deliveryInvariant (applyWebhookOp 5 r op) := by
  cases op with
  | skipRun => exact h
  | success => simp [deliveryInvariant, applyWebhookOp, applyDeliverSuccess]
  | failure attemptsMade nowMs errMsg =>
    by_cases hlt : attemptsMade + 1 < 5 <;>
      simp [deliveryInvariant, applyWebhookOp, applyWebhookFailedHook, hlt] <;> omega

theorem runWebhookOps_invariant (ops : List WebhookDeliveryOp) (r : DeliveryState)
    (h : deliveryInvariant r) : deliveryInvariant (runWebhookOps 5 ops r) := by
  induction ops generalizing r with
  | nil => exact h
  | cons op rest ih => exact ih _ (applyWebhookOp_invariant r op h)

/-- C2: a 2xx response updates the delivery row to SUCCESS with attempts
incremented by one and lastError and nextRetryAt cleared; the failed hook
computes attempts as attemptsMade + 1 and writes FAILED with
nextRetryAt = now + 2 ^ attempts seconds below the job max of 5, otherwise
DLQ with no retry time; consequently, over any run of deliver-job outcomes
starting from a fresh row, SUCCESS implies cleared lastError and
nextRetryAt, and DLQ implies at least 5 attempts. -/
theorem webhookDelivery_C2 :
    (∀ r : DeliveryState,
      (applyDeliverSuccess r).status = DeliveryStatus.SUCCESS ∧
      (applyDeliverSuccess r).attempts = r.attempts + 1 ∧
      (applyDeliverSuccess r).lastError = none ∧
      (applyDeliverSuccess r).nextRetryAt = none) ∧
    (∀ (attemptsMade nowMs : Nat) (e : String) (r : DeliveryState),
      attemptsMade + 1 < 5 →
        applyWebhookFailedHook 5 attemptsMade nowMs e r =
          { status := .FAILED, attempts := attemptsMade + 1, lastError := some e,
            nextRetryAt := some (nowMs + 2 ^ (attemptsMade + 1) * 1000) }) ∧
    (∀ (attemptsMade nowMs : Nat) (e : String) (r : DeliveryState),
      ¬ attemptsMade + 1 < 5 →
        applyWebhookFailedHook 5 attemptsMade nowMs e r =
          { status := .DLQ, attempts := attemptsMade + 1, lastError := some e,
            nextRetryAt := none }) ∧
    (∀ ops : List WebhookDeliveryOp,
      ((runWebhookOps 5 ops initialDeliveryState).status = .SUCCESS →
        (runWebhookOps 5 ops initialDeliveryState).lastError = none ∧
        (runWebhookOps 5 ops initialDeliveryState).nextRetryAt = none) ∧
      ((runWebhookOps 5 ops initialDeliveryState).status = .DLQ →
        5 ≤ (runWebhookOps 5 ops initialDeliveryState).attempts)) := by
  refine ⟨?_, ?_, ?_, ?_⟩
  · intro r; simp [applyDeliverSuccess]
  · intro am nowMs e r h; simp [applyWebhookFailedHook, h]
  · intro am nowMs e r h; simp [applyWebhookFailedHook, h]
  · intro ops
    exact runWebhookOps_invariant ops initialDeliveryState
      (by simp [deliveryInvariant, initialDeliveryState])

/-- Witness for C2 at a concrete run: a fifth consecutive failure sends the
row to DLQ with five attempts recorded. -/
theorem webhookDelivery_C2_witness :
    applyWebhookFailedHook 5 4 0 "Webhook responded 503: x" initialDeliveryState =
      { status := .DLQ, attempts := 5, lastError := some "Webhook responded 503: x",
        nextRetryAt := none } ∧
    5 ≤ (runWebhookOps 5 [.failure 4 0 "Webhook responded 503: x"]
          initialDeliveryState).attempts :=
  ⟨webhookDelivery_C2.2.2.1 4 0 "Webhook responded 503: x" initialDeliveryState
      (by decide),
   (webhookDelivery_C2.2.2.2 [.failure 4 0 "Webhook responded 503: x"]).2 (by decide)⟩

/-- C10: a DatabaseLogger call at level DEBUG or WARN never creates a Log
row; a row is created only by ERROR calls (and INFO calls in the current
variant) and only when the create succeeds; a create failure is reported on
the console and never propagated to the caller. -/
theorem loggerLevels_C10 :
    ∀ (variant : LoggerVariant) (service : String) (level : LogLevel)
      (message : String) (error : Option String) (dbWriteOk : Bool),
      ((level = .DEBUG ∨ level = .WARN) →
        (dbLoggerLog variant service level message error dbWriteOk).dbRow = none) ∧
      (∀ row, (dbLoggerLog variant service level message error dbWriteOk).dbRow = some row →
        dbWriteOk = true ∧
        (level = .ERROR ∨ (variant = .errorAndInfo ∧ level = .INFO)) ∧
        row = { level := level, service := service, message := message, error := error }) ∧
      (dbLoggerLog variant service level message error dbWriteOk).raisedToCaller = false ∧
      (dbWriteOk = false → logPersists variant level = true →
        (dbLoggerLog variant service level message error dbWriteOk).dbRow = none ∧
        (dbLoggerLog variant service level message error dbWriteOk).failureReportedOnConsole
          = true) := by
  intro variant service level message error dbWriteOk
  cases variant <;> cases level <;> cases dbWriteOk <;>
    simp [dbLoggerLog, logPersists]

/-- Witness for C10: a WARN call with a healthy database writes no row, and
a failing ERROR write is reported without raising. -/
theorem loggerLevels_C10_witness :
    (dbLoggerLog .errorAndInfo "worker" .WARN "slow" none true).dbRow = none ∧
    (dbLoggerLog .errorAndInfo "worker" .ERROR "boom" (some "stack") false).dbRow = none ∧
    (dbLoggerLog .errorAndInfo "worker" .ERROR "boom" (some "stack")
        false).failureReportedOnConsole = true ∧
    (dbLoggerLog .errorAndInfo "worker" .ERROR "boom" (some "stack")
        false).raisedToCaller = false :=
  ⟨(loggerLevels_C10 .errorAndInfo "worker" .WARN "slow" none true).1 (Or.inr rfl),
   ((loggerLevels_C10 .errorAndInfo "worker" .ERROR "boom" (some "stack") false).2.2.2
      rfl (by decide)).1,
   ((loggerLevels_C10 .errorAndInfo "worker" .ERROR "boom" (some "stack") false).2.2.2
      rfl (by decide)).2,
   (loggerLevels_C10 .errorAndInfo "worker" .ERROR "boom" (some "stack") false).2.2.1⟩

/-- C4: a send job whose OutboundMessage row exists but whose Device row is
not ONLINE moves the row QUEUED to PROCESSING to FAILED with error
device_not_online followed by the actual status, makes no transport call,
and returns normally, so FAILED is terminal and the queue retries
nothing. -/
theorem outboundNotOnline_C4 :
    ∀ (row : OutboundRow) (device : Device) (sock? : Option SockState),
      row.status = .QUEUED → device.status ≠ .ONLINE →
      (runOutboundSendJob (some row) (some device) sock?).writes =
        [.processing,
         .failed ("device_not_online:" ++ deviceStatusStr device.status)] ∧
      statusHistory row.status (runOutboundSendJob (some row) (some device) sock?) =
        [.QUEUED, .PROCESSING, .FAILED] ∧
      (runOutboundSendJob (some row) (some device) sock?).sendCalls = 0 ∧
      (runOutboundSendJob (some row) (some device) sock?).presenceCalls = 0 ∧
      (runOutboundSendJob (some row) (some device) sock?).outcome = .completed := by
  intro row device sock? hq hs
  simp [runOutboundSendJob, hs, statusHistory, rowWriteStatus, hq]

/-- Concrete rows for the C4 witness (scenario S3 of the spec). -/
def c4Row : OutboundRow :=
  { id := "om1", tenantId := "t1", deviceId := "d1",
    toJid := "5491122223333@s.whatsapp.net", type := "text",
    payloadText := some "hola", status := .QUEUED }

/-- Concrete OFFLINE device for the C4 witness. -/
def c4Device : Device := { id := "d1", tenantId := "t1", status := .OFFLINE }

/-- Witness for C4: an OFFLINE device fails the job with
device_not_online:OFFLINE and no transport call. -/
theorem outboundNotOnline_C4_witness :
    (runOutboundSendJob (some c4Row) (some c4Device) none).writes =
      [.processing, .failed "device_not_online:OFFLINE"] ∧
    statusHistory c4Row.status (runOutboundSendJob (some c4Row) (some c4Device) none) =
      [.QUEUED, .PROCESSING, .FAILED] ∧
    (runOutboundSendJob (some c4Row) (some c4Device) none).sendCalls = 0 ∧
    (runOutboundSendJob (some c4Row) (some c4Device) none).presenceCalls = 0 ∧
    (runOutboundSendJob (some c4Row) (some c4Device) none).outcome = .completed :=
  outboundNotOnline_C4 c4Row c4Device none (by decide) (by decide)

/-- Concrete device for the C7 counterexample. -/
def c7Device : Device := { id := "d1", tenantId := "t1", status := .QR }

/-- Concrete still-live PublicQrLink for the C7 counterexample. -/
def c7Link : PublicQrLink := { id := "l1", deviceId := "d1", token := "tok", expiresAt := 10 }

/-- Counterexample for C7 as stated: at the handler instant now = 5, the
link of the device is rewritten to expiresAt = 5, and the claimed
conclusion fails because the validity predicate now less-or-equal expiresAt
still holds at that same instant (5 is at most 5). -/
theorem qrExpiry_C7_cx :
    ∃ l ∈ (onConnectionOpen "d1" 5 c7Device [c7Link]).2,
      l.deviceId = "d1" ∧ qrLinkValid 5 l := by decide

/-- C7 (amended): the open handler sets the device to ONLINE with qr and
lastError cleared and lastSeenAt now, and rewrites expiresAt to now on
exactly the device links whose expiresAt exceeds now; afterwards every link
of the device has expiresAt at most now, so the validity predicate fails at
every read time strictly after now. -/
theorem qrExpiry_C7 :
    ∀ (deviceId : String) (now : Nat) (device : Device) (links : List PublicQrLink),
      (onConnectionOpen deviceId now device links).1.status = .ONLINE ∧
      (onConnectionOpen deviceId now device links).1.qr = none ∧
      (onConnectionOpen deviceId now device links).1.lastSeenAt = some now ∧
      (onConnectionOpen deviceId now device links).1.lastError = none ∧
      (onConnectionOpen deviceId now device links).2 =
        links.map (fun l =>
          if l.deviceId = deviceId ∧ now < l.expiresAt then
            { l with expiresAt := now }
          else l) ∧
      (∀ l ∈ (onConnectionOpen deviceId now device links).2,
        l.deviceId = deviceId → l.expiresAt ≤ now) ∧
      (∀ t, now < t →
        ∀ l ∈ (onConnectionOpen deviceId now device links).2,
          l.deviceId = deviceId → ¬ qrLinkValid t l) := by
  intro deviceId now device links
  refine ⟨rfl, rfl, rfl, rfl, ?_, ?_, ?_⟩
  · simp only [onConnectionOpen]
    refine List.map_congr_left (fun l _ => ?_)
    by_cases h1 : l.deviceId = deviceId <;> by_cases h2 : now < l.expiresAt <;>
      simp [h1, h2]
  · intro l hl
    simp only [onConnectionOpen, List.mem_map] at hl
    obtain ⟨l0, _, rfl⟩ := hl
    split
    · intro _; simp
    · next hc =>
      intro hdev
      simp only [Bool.and_eq_true, beq_iff_eq, decide_eq_true_eq, not_and] at hc
      have := hc hdev
      omega
  · intro t ht l hl
    simp only [onConnectionOpen, List.mem_map] at hl
    obtain ⟨l0, _, rfl⟩ := hl
    simp only [qrLinkValid]
    split
    · intro _; simp; omega
    · next hc =>
      intro hdev
      simp only [Bool.and_eq_true, beq_iff_eq, decide_eq_true_eq, not_and] at hc
      have := hc hdev
      omega

/-- Witness for C7 at the concrete link of the counterexample: after the
handler the link is expired for any strictly later read. -/
theorem qrExpiry_C7_witness :
    ∀ l ∈ (onConnectionOpen "d1" 5 c7Device [c7Link]).2,
      l.deviceId = "d1" → ¬ qrLinkValid 6 l :=
  (qrExpiry_C7 "d1" 5 c7Device [c7Link]).2.2.2.2.2.2 6 (by decide)

/-- Counterexample for C8 as stated: with WORKER_RECONNECT_STAGGER_MS
unset, the sweep stagger interval is 800 ms, not the claimed 5000 ms. -/
theorem reconnectStagger_C8_cx : workerReconnectStaggerMs none ≠ 5000 := by decide

theorem sweepLoop_no_live (fails : String → Bool) (staggerMs : Nat)
    (h : 0 < staggerMs) :
    ∀ ds : List String,
      (sweepLoop [] fails staggerMs ds).connects = ds ∧
      (sweepLoop [] fails staggerMs ds).waits =
        List.replicate (ds.length - 1) staggerMs ∧
      (sweepLoop [] fails staggerMs ds).failuresLogged = ds.filter fails := by
  intro ds
  induction ds with
  | nil => simp [sweepLoop]
  | cons d rest ih =>
    cases rest with
    | nil =>
      by_cases hf : fails d <;> simp [sweepLoop, hf, List.filter]
    | cons e rest2 =>
      obtain ⟨ih1, ih2, ih3⟩ := ih
      by_cases hf : fails d <;>
        simp [sweepLoop, hf, h, ih1, ih2, ih3, List.filter, List.replicate_succ]

/-- C8 (amended): the startup delay defaults to 5000 ms; the stagger
defaults to 800 ms (not 5000) when WORKER_RECONNECT_STAGGER_MS is unset;
the sweep lists exactly the devices with a persisted WaSession row; and
with no live sessions it calls connect on each of them in order, sleeping
the positive stagger interval between consecutive attempts, while a
connect failure is only logged and never prevents the remaining
connects. -/
theorem reconnectSweep_C8 :
    workerReconnectDelayMs none = 5000 ∧
    workerReconnectStaggerMs none = 800 ∧
    (∀ (devices : List Device) (ws : List (String × String)) (d : String),
      d ∈ sweepDevices devices ws ↔
        ∃ dev ∈ devices, dev.id = d ∧ ∃ s ∈ ws, s.1 = dev.id) ∧
    (∀ (fails : String → Bool) (staggerMs : Nat) (ds : List String),
      0 < staggerMs →
        (sweepLoop [] fails staggerMs ds).connects = ds ∧
        (sweepLoop [] fails staggerMs ds).waits =
          List.replicate (ds.length - 1) staggerMs ∧
        (sweepLoop [] fails staggerMs ds).failuresLogged = ds.filter fails) := by
  refine ⟨rfl, rfl, ?_, ?_⟩
  · intro devices ws d
    simp only [sweepDevices, List.mem_map, List.mem_filter, List.any_eq_true,
      beq_iff_eq]
    constructor
    · rintro ⟨dev, ⟨hmem, s, hs, hsid⟩, rfl⟩
      exact ⟨dev, hmem, rfl, s, hs, hsid⟩
    · rintro ⟨dev, hmem, rfl, s, hs, hsid⟩
      exact ⟨dev, ⟨hmem, s, hs, hsid⟩, rfl⟩
  · intro fails staggerMs ds h
    exact sweepLoop_no_live fails staggerMs h ds

/-- Device rows for the C8 witness. -/
def c8Devices : List Device :=
  [{ id := "d1", tenantId := "t1", status := .OFFLINE },
   { id := "d2", tenantId := "t1", status := .OFFLINE },
   { id := "d3", tenantId := "t2", status := .OFFLINE }]

/-- WaSession rows for the C8 witness: d1 and d3 are linked, d2 is not. -/
def c8Sessions : List (String × String) := [("d1", "enc1"), ("d3", "enc3")]

/-- Witness for C8 at a concrete fleet: the sweep selects d1 and d3, a
failure on d1 does not stop d3, and one stagger wait separates the two
attempts. -/
theorem reconnectSweep_C8_witness :
    ("d1" ∈ sweepDevices c8Devices c8Sessions ↔
      ∃ dev ∈ c8Devices, dev.id = "d1" ∧ ∃ s ∈ c8Sessions, s.1 = dev.id) ∧
    (sweepLoop [] (fun d => d == "d1") 800
        (sweepDevices c8Devices c8Sessions)).connects = ["d1", "d3"] ∧
    (sweepLoop [] (fun d => d == "d1") 800
        (sweepDevices c8Devices c8Sessions)).waits = [800] ∧
    (sweepLoop [] (fun d => d == "d1") 800
        (sweepDevices c8Devices c8Sessions)).failuresLogged = ["d1"] := by
  have h := reconnectSweep_C8
  refine ⟨h.2.2.1 c8Devices c8Sessions "d1", ?_, ?_, ?_⟩
  · exact (h.2.2.2 (fun d => d == "d1") 800 (sweepDevices c8Devices c8Sessions)
      (by decide)).1.trans (by decide)
  · exact ((h.2.2.2 (fun d => d == "d1") 800 (sweepDevices c8Devices c8Sessions)
      (by decide)).2.1).trans (by decide)
  · exact ((h.2.2.2 (fun d => d == "d1") 800 (sweepDevices c8Devices c8Sessions)
      (by decide)).2.2).trans (by decide)

theorem findWaSession_isSome {table : List (String × String)} {deviceId : String}
    {blob : String} (h : findWaSession table deviceId = some blob) :
    (table.find? (fun r => r.1 == deviceId)).isSome = true := by
  simp only [findWaSession, Option.map_eq_some'] at h
  obtain ⟨r, hr, _⟩ := h
  simp [hr]

theorem findWaSession_after_set {table : List (String × String)} {deviceId : String}
    (nb : String)
    (h : (table.find? (fun r => r.1 == deviceId)).isSome = true) :
    findWaSession (table.map (fun r => if r.1 == deviceId then (r.1, nb) else r))
      deviceId = some nb := by
  induction table with
  | nil => simp at h
  | cons a rest ih =>
    by_cases ha : (a.1 == deviceId) = true
    · unfold findWaSession
      rw [List.map_cons, if_pos ha]
      simp [List.find?, ha]
    · have h' : (rest.find? (fun r => r.1 == deviceId)).isSome = true := by
        simp only [List.find?, Bool.of_not_eq_true ha] at h
        exact h
      have hrec := ih h'
      unfold findWaSession at hrec ⊢
      rw [List.map_cons, if_neg ha]
      simp only [List.find?, Bool.of_not_eq_true ha]
      exact hrec

/-- C9: clearSessionsForJids writes nothing when no jid yields a user part,
when the device has no WaSession row (or an empty blob), when the blob does
not decrypt, or when no bucket entry matches; it never creates a row for a
device that had none (the table keys are unchanged); and when it writes, the
row holds the unchanged creds re-encrypted with exactly the matching
session, sessions and sender-key entries removed and every other bucket
untouched. -/
theorem clearSessions_C9 :
    ∀ (dec : String → Option AuthBlob) (enc : AuthBlob → String)
      (table : List (String × String)) (deviceId : String) (jids : List String),
      (userPartsOf jids = [] →
        clearSessionsForJids dec enc table deviceId jids = ⟨table, false⟩) ∧
      (findWaSession table deviceId = none →
        clearSessionsForJids dec enc table deviceId jids = ⟨table, false⟩) ∧
      (∀ blob, findWaSession table deviceId = some blob → (blob = "" ∨ dec blob = none) →
        clearSessionsForJids dec enc table deviceId jids = ⟨table, false⟩) ∧
      (∀ blob parsed, findWaSession table deviceId = some blob → dec blob = some parsed →
        cleanKeysData (userPartsOf jids) parsed.keysData = parsed.keysData →
        clearSessionsForJids dec enc table deviceId jids = ⟨table, false⟩) ∧
      ((clearSessionsForJids dec enc table deviceId jids).table.map Prod.fst =
        table.map Prod.fst) ∧
      (∀ blob parsed, blob ≠ "" → findWaSession table deviceId = some blob →
        dec blob = some parsed →
        cleanKeysData (userPartsOf jids) parsed.keysData ≠ parsed.keysData →
        userPartsOf jids ≠ [] →
        (clearSessionsForJids dec enc table deviceId jids).wrote = true ∧
        findWaSession (clearSessionsForJids dec enc table deviceId jids).table deviceId =
          some (enc { creds := parsed.creds,
                      keysData := cleanKeysData (userPartsOf jids) parsed.keysData })) ∧
      (∀ (ups : List String) (bucket : String) (entries : List (String × String))
         (e : String × String),
        e ∈ cleanBucket ups bucket entries ↔
          e ∈ entries ∧
          ((bucket = "session" ∨ bucket = "sessions") →
            ¬ ∃ u ∈ ups, matchesSessionId e.1 u = true) ∧
          (bucket = "sender-key" → ¬ ∃ u ∈ ups, strHasSub e.1 u = true)) := by
  intro dec enc table deviceId jids
  refine ⟨?_, ?_, ?_, ?_, ?_, ?_, ?_⟩
  · intro h
    simp [clearSessionsForJids, h]
  · intro h
    rcases he : userPartsOf jids with _ | ⟨u, us⟩
    · simp [clearSessionsForJids, he]
    · simp [clearSessionsForJids, he, h]
  · intro blob hfind hbad
    rcases he : userPartsOf jids with _ | ⟨u, us⟩
    · simp [clearSessionsForJids, he]
    · rcases hbad with hblob | hdec
      · subst hblob; simp [clearSessionsForJids, he, hfind]
      · by_cases hblob : blob = ""
        · subst hblob; simp [clearSessionsForJids, he, hfind]
        · simp [clearSessionsForJids, he, hfind, hblob, hdec]
  · intro blob parsed hfind hdec hclean
    rcases he : userPartsOf jids with _ | ⟨u, us⟩
    · simp [clearSessionsForJids, he]
    · by_cases hblob : blob = ""
      · subst hblob; simp [clearSessionsForJids, he, hfind]
      · rw [he] at hclean
        simp [clearSessionsForJids, he, hfind, hblob, hdec, hclean]
  · rcases he : userPartsOf jids with _ | ⟨u, us⟩
    · simp [clearSessionsForJids, he]
    · rcases hfind : findWaSession table deviceId with _ | blob
      · simp [clearSessionsForJids, he, hfind]
      · by_cases hblob : blob = ""
        · subst hblob; simp [clearSessionsForJids, he, hfind]
        · rcases hdec : dec blob with _ | parsed
          · simp [clearSessionsForJids, he, hfind, hblob, hdec]
          · by_cases hclean :
              cleanKeysData (u :: us) parsed.keysData = parsed.keysData
            · simp [clearSessionsForJids, he, hfind, hblob, hdec, hclean]
            · have hsome := findWaSession_isSome hfind
              simp only [clearSessionsForJids, he, List.isEmpty_cons,
                Bool.false_eq_true, if_false, hfind, hblob, if_neg, hdec,
                beq_iff_eq, hclean, hsome, if_true, List.map_map]
              refine List.map_congr_left (fun r _ => ?_)
              by_cases hr : r.1 = deviceId <;> simp [hr]
  · intro blob parsed hblob hfind hdec hclean hups
    rcases he : userPartsOf jids with _ | ⟨u, us⟩
    · exact absurd he hups
    · rw [he] at hclean
      have hsome := findWaSession_isSome hfind
      constructor
      · simp [clearSessionsForJids, he, hfind, hblob, hdec, hclean, hsome]
      · have hcb : (cleanKeysData (u :: us) parsed.keysData == parsed.keysData) = false :=
          beq_eq_false_iff_ne.mpr hclean
        simp only [clearSessionsForJids, he, List.isEmpty_cons,
          Bool.false_eq_true, if_false, hfind, hblob, if_neg, hdec,
          hcb, hsome, if_true]
        exact findWaSession_after_set _ hsome
  · intro ups bucket entries e
    by_cases h1 : bucket = "session"
    · subst h1
      simp [cleanBucket, List.mem_filter, List.any_eq_true, and_assoc]
    · by_cases h2 : bucket = "sessions"
      · subst h2
        simp [cleanBucket, List.mem_filter, List.any_eq_true, and_assoc]
      · by_cases h3 : bucket = "sender-key"
        · subst h3
          simp [cleanBucket, List.mem_filter, List.any_eq_true, and_assoc]
        · simp [cleanBucket, h1, h2, h3]

/-- Decoded auth blob for the C9 witness: one Signal session for peer
67229240574002, one unrelated session, one sender key and one pre-key. -/
def c9Blob : AuthBlob :=
  { creds := "serialized-creds",
    keysData := [("session", [("67229240574002:1", "k1"), ("555", "k2")]),
                 ("sender-key", [("g1::67229240574002::1", "sk")]),
                 ("pre-key", [("1", "pk")])] }

/-- Decrypt oracle for the C9 witness. -/
def c9Dec : String → Option AuthBlob := fun s => if s = "blob1" then some c9Blob else none

/-- Encrypt oracle for the C9 witness. -/
def c9Enc : AuthBlob → String := fun _ => "blob2"

/-- WaSession table for the C9 witness. -/
def c9Table : List (String × String) := [("d1", "blob1")]

/-- Witness for C9: an empty jid list writes nothing, and clearing the jid
of the stored peer rewrites the row to the re-encrypted cleaned blob. -/
theorem clearSessions_C9_witness :
    clearSessionsForJids c9Dec c9Enc c9Table "d1" [] = ⟨c9Table, false⟩ ∧
    (clearSessionsForJids c9Dec c9Enc c9Table "d1" ["67229240574002@lid"]).wrote = true ∧
    findWaSession (clearSessionsForJids c9Dec c9Enc c9Table "d1"
        ["67229240574002@lid"]).table "d1" =
      some (c9Enc { creds := c9Blob.creds,
                    keysData := cleanKeysData (userPartsOf ["67229240574002@lid"])
                      c9Blob.keysData }) :=
  ⟨(clearSessions_C9 c9Dec c9Enc c9Table "d1" []).1 (by decide),
   ((clearSessions_C9 c9Dec c9Enc c9Table "d1" ["67229240574002@lid"]).2.2.2.2.2.1
      "blob1" c9Blob (by decide) (by decide) (by decide) (by decide) (by decide)).1,
   ((clearSessions_C9 c9Dec c9Enc c9Table "d1" ["67229240574002@lid"]).2.2.2.2.2.1
      "blob1" c9Blob (by decide) (by decide) (by decide) (by decide) (by decide)).2⟩

theorem jidNormalizedUser_ne_empty {s : String} (h : (jidDecode s).isSome) :
    jidNormalizedUser s ≠ "" := by
  obtain ⟨⟨u, srv⟩, hu⟩ := Option.isSome_iff_exists.mp h
  simp only [jidNormalizedUser, hu, jidEncode]
  intro hcon
  have hdata := congrArg String.data hcon
  simp at hdata

/-- C6: the normalizer is a pure function of the envelope and device jid
(equal inputs give equal outputs), and on a 1:1 message (the chat id is
truthy and neither group nor broadcast) the from field is the normalized
phone-form address senderPn when the envelope carries a truthy decodable
one, and the normalized chat id otherwise. -/
theorem normalizerFrom_C6 :
    ∀ (msg : WebMessageInfo) (deviceJid : Option String),
      normalizeInboundMessage msg deviceJid = normalizeInboundMessage msg deviceJid ∧
      (∀ c, chatIdOf msg = some c → c ≠ "" →
        isJidGroup c = false → isJidBroadcast c = false →
        (∀ pn, senderPnOf msg = some pn → pn ≠ "" → (jidDecode pn).isSome →
          (normalizeInboundMessage msg deviceJid).fromAddr = jidNormalizedUser pn) ∧
        (strTruthy (senderPnOf msg) = false → (jidDecode c).isSome →
          (normalizeInboundMessage msg deviceJid).fromAddr = jidNormalizedUser c)) := by
  intro msg deviceJid
  refine ⟨rfl, ?_⟩
  intro c hc hcne hg hb
  have hone : isOneToOneOf msg = true := by
    simp [isOneToOneOf, hc, hcne, hg, hb]
  constructor
  · intro pn hpn hpnne hdec
    have hnu : jidNormalizedUser pn ≠ "" := jidNormalizedUser_ne_empty hdec
    simp [normalizeInboundMessage, hone, hpn, hpnne, jsOr, strTruthy, hnu]
  · intro hpnt hdec
    have hnu : jidNormalizedUser c ≠ "" := jidNormalizedUser_ne_empty hdec
    rcases hsp : senderPnOf msg with _ | pn
    · simp [normalizeInboundMessage, hone, hsp, hc, hcne, jsOr, strTruthy, hnu]
    · rw [hsp] at hpnt
      have hpn0 : pn = "" := by
        by_contra hne
        simp [strTruthy, hne] at hpnt
      subst hpn0
      simp [normalizeInboundMessage, hone, hsp, hc, hcne, jsOr, strTruthy, hnu]

/-- Concrete 1:1 envelope with a phone-form senderPn for the C6 witness. -/
def c6Msg : WebMessageInfo :=
  { key := some { id := some "m1", remoteJid := some "67229240574002@lid",
                  senderPn := some "5491122223333@s.whatsapp.net" },
    message := some { conversation := some "hola" },
    messageTimestamp := some 1736900000 }

/-- Concrete 1:1 envelope without senderPn for the C6 witness. -/
def c6MsgNoPn : WebMessageInfo :=
  { key := some { id := some "m2", remoteJid := some "5491122223333@s.whatsapp.net" },
    message := some { conversation := some "hola" } }

/-- Witness for C6: with a senderPn the reply address is the normalized
phone form, without one it is the normalized chat id. -/
theorem normalizerFrom_C6_witness :
    (normalizeInboundMessage c6Msg none).fromAddr =
      jidNormalizedUser "5491122223333@s.whatsapp.net" ∧
    (normalizeInboundMessage c6MsgNoPn none).fromAddr =
      jidNormalizedUser "5491122223333@s.whatsapp.net" :=
  ⟨((normalizerFrom_C6 c6Msg none).2 "67229240574002@lid" (by decide) (by decide)
      (by decide) (by decide)).1 "5491122223333@s.whatsapp.net" (by decide)
      (by decide) (by decide),
   ((normalizerFrom_C6 c6MsgNoPn none).2 "5491122223333@s.whatsapp.net" (by decide)
      (by decide) (by decide) (by decide)).2 (by decide) (by decide)⟩

theorem fanOut_facts (eventId : Nat) :
    ∀ (eps : List WebhookEndpoint) (n : Nat),
      ((fanOut eventId eps n).1.map (fun d => d.endpointId) = eps.map (fun e => e.id)) ∧
      (∀ d ∈ (fanOut eventId eps n).1,
        d.status = .PENDING ∧ d.attempts = 0 ∧ d.eventId = eventId) ∧
      ((fanOut eventId eps n).2.1 = (fanOut eventId eps n).1.map
        (fun d => { deliveryId := d.id, attempts := 5,
                    backoffExponentialDelayMs := 1000 })) := by
  intro eps
  induction eps with
  | nil => intro n; simp [fanOut]
  | cons ep rest ih =>
    intro n
    obtain ⟨ih1, ih2, ih3⟩ := ih (n + 1)
    rcases hf : fanOut eventId rest (n + 1) with ⟨ds, js, m⟩
    rw [hf] at ih1 ih2 ih3
    refine ⟨?_, ?_, ?_⟩
    · simp [fanOut, hf, ih1]
    · intro d hd
      rw [show (fanOut eventId (ep :: rest) n).1 =
            { id := n, endpointId := ep.id, eventId := eventId,
              status := .PENDING, attempts := 0 } :: ds by simp [fanOut, hf]] at hd
      rcases List.mem_cons.mp hd with rfl | hd'
      · exact ⟨rfl, rfl, rfl⟩
      · exact ih2 d hd'
    · have h3 : js = List.map
          (fun d => { deliveryId := d.id, attempts := 5,
                      backoffExponentialDelayMs := 1000 : WebhookJobSpec }) ds := by
        simpa using ih3
      simp [fanOut, hf, h3]

theorem countP_id_filter {table : List WebhookEndpoint} {ep : WebhookEndpoint}
    (pred : WebhookEndpoint → Bool)
    (hmem : ep ∈ table) (hnd : (table.map (fun e => e.id)).Nodup) :
    (table.filter pred).countP (fun e => e.id == ep.id) =
      if pred ep then 1 else 0 := by
  induction table with
  | nil => cases hmem
  | cons a rest ih =>
    simp only [List.map_cons, List.nodup_cons] at hnd
    obtain ⟨hna, hnd2⟩ := hnd
    rcases List.mem_cons.mp hmem with rfl | hmem2
    · have hz : (rest.filter pred).countP (fun e => e.id == ep.id) = 0 := by
        rw [List.countP_eq_zero]
        intro x hx
        have hxr : x ∈ rest := (List.mem_filter.mp hx).1
        have hne : x.id ≠ ep.id := by
          intro hcodes
          exact hna (hcodes ▸ List.mem_map_of_mem _ hxr)
        simp [hne]
      by_cases hp : pred ep
      · simp [List.filter_cons, hp, List.countP_cons, hz]
      · simp [List.filter_cons, hp, hz]
    · have hne : (a.id == ep.id) = false := by
        rw [beq_eq_false_iff_ne]
        intro hae
        exact hna (hae ▸ List.mem_map_of_mem _ hmem2)
      have hrec := ih hmem2 hnd2
      by_cases hp : pred a
      · simp [List.filter_cons, hp, List.countP_cons, hne, hrec]
      · simp [List.filter_cons, hp, hrec]

theorem processInboundMessage_shape (device : Device) (endpoints : List WebhookEndpoint)
    (ackText sockUserId : Option String) (msg : WebMessageInfo) (nextId : Nat) :
    ((processInboundMessage device endpoints ackText sockUserId msg nextId).1.events = [] ∧
     (processInboundMessage device endpoints ackText sockUserId msg nextId).1.deliveries
       = [] ∧
     (processInboundMessage device endpoints ackText sockUserId msg nextId).1.webhookJobs
       = []) ∨
    (∃ payload : EventPayload,
      (processInboundMessage device endpoints ackText sockUserId msg nextId).1.events =
        [{ id := nextId, tenantId := device.tenantId, deviceId := device.id,
           type := "message.inbound", normalizedJson := payload, rawJson := msg }] ∧
      (processInboundMessage device endpoints ackText sockUserId msg nextId).1.deliveries =
        (fanOut nextId endpoints (nextId + 1)).1 ∧
      (processInboundMessage device endpoints ackText sockUserId msg nextId).1.webhookJobs =
        (fanOut nextId endpoints (nextId + 1)).2.1) := by
  unfold processInboundMessage
  cases msg.key with
  | none => left; simp
  | some k =>
    dsimp only
    cases hr : k.remoteJid with
    | none => left; simp
    | some r =>
      dsimp only
      by_cases h1 : r = ""
      · left; simp [h1]
      · rw [if_neg h1]
        cases h2 : k.fromMe with
        | true => left; simp
        | false =>
          simp only [Bool.false_eq_true, if_false]
          by_cases h3 : r = "status@broadcast"
          · left; simp [h3]
          · rw [if_neg h3]
            by_cases h4 : (normalizeInboundMessage msg sockUserId).content.type =
                ContentType.stub
            · rw [if_pos h4]
              by_cases h5 : decryptionFailureMatch
                  (((normalizeInboundMessage msg sockUserId).content.text).getD "")
              · rw [if_pos h5]
                rcases hf : fanOut nextId endpoints (nextId + 1) with ⟨ds, js, m⟩
                right
                exact ⟨_, rfl, by simp [hf], by simp [hf]⟩
              · rw [if_neg h5]
                left; simp
            · rw [if_neg h4]
              rcases hf : fanOut nextId endpoints (nextId + 1) with ⟨ds, js, m⟩
              rcases ha : (if strTruthy (ackText.map strTrim) &&
                  (normalizeInboundMessage msg sockUserId).fromAddr != "" then
                    ([({ id := m, tenantId := device.tenantId, deviceId := device.id,
                         toJid := toJid (normalizeInboundMessage msg sockUserId).fromAddr,
                         type := "text",
                         payloadText := strTrim (ackText.getD ""), isTest := false }
                        : OutboundRowCreated)],
                     [({ outboundMessageId := m, attempts := 3,
                         backoffExponentialDelayMs := 1000 } : OutboundJobSpec)], m + 1)
                  else ([], [], m)) with ⟨ackRows, ackJobs, n2⟩
              right
              exact ⟨_, rfl, by simp [hf, ha], by simp [hf, ha]⟩

/-- C1: every Event the inbound pipeline persists (type message.inbound)
fans out exactly one PENDING WebhookDelivery with zero attempts per enabled
endpoint of the device tenant in the endpoint table, each referencing that
Event, with one webhook_dispatch deliver job (attempts 5, exponential
backoff base 1 s) per delivery; disabled endpoints and endpoints of other
tenants get no delivery row. -/
theorem fanout_C1 :
    ∀ (db : Db) (device : Device) (ackText sockUserId : Option String)
      (msg : WebMessageInfo) (nextId : Nat),
      (db.endpoints.map (fun e => e.id)).Nodup →
      ∀ ev ∈ (processInboundMessage device (enabledEndpointsOf db device) ackText
                sockUserId msg nextId).1.events,
        ev.type = "message.inbound" ∧
        ev.tenantId = device.tenantId ∧
        (∀ ep ∈ db.endpoints,
          ((processInboundMessage device (enabledEndpointsOf db device) ackText
              sockUserId msg nextId).1.deliveries.filter
            (fun d => d.endpointId == ep.id)).length =
            if ep.tenantId = device.tenantId ∧ ep.enabled = true then 1 else 0) ∧
        (∀ d ∈ (processInboundMessage device (enabledEndpointsOf db device) ackText
                  sockUserId msg nextId).1.deliveries,
          d.status = .PENDING ∧ d.attempts = 0 ∧ d.eventId = ev.id ∧
          ∃ ep ∈ db.endpoints, ep.tenantId = device.tenantId ∧ ep.enabled = true ∧
            d.endpointId = ep.id) ∧
        ((processInboundMessage device (enabledEndpointsOf db device) ackText
            sockUserId msg nextId).1.webhookJobs =
          (processInboundMessage device (enabledEndpointsOf db device) ackText
            sockUserId msg nextId).1.deliveries.map
            (fun d => { deliveryId := d.id, attempts := 5,
                        backoffExponentialDelayMs := 1000 })) := by
  intro db device ackText sockUserId msg nextId hnd ev hev
  obtain ⟨hmap, hall, hjobs⟩ :=
    fanOut_facts nextId (enabledEndpointsOf db device) (nextId + 1)
  rcases processInboundMessage_shape device (enabledEndpointsOf db device) ackText
      sockUserId msg nextId with ⟨he, _, _⟩ | ⟨payload, he, hd, hj⟩
  · rw [he] at hev; cases hev
  · rw [he] at hev
    obtain rfl := List.mem_singleton.mp hev
    refine ⟨rfl, rfl, ?_, ?_, ?_⟩
    · intro ep hep
      rw [hd, ← List.countP_eq_length_filter]
      have hcongr : (fanOut nextId (enabledEndpointsOf db device) (nextId + 1)).1.countP
          (fun d => d.endpointId == ep.id) =
          ((fanOut nextId (enabledEndpointsOf db device) (nextId + 1)).1.map
            (fun d => d.endpointId)).countP (fun s => s == ep.id) := by
        rw [List.countP_map]
        rfl
      rw [hcongr, hmap, List.countP_map]
      have hres := countP_id_filter
        (fun e => e.tenantId == device.tenantId && e.enabled) hep hnd
      rw [show ((fun s => s == ep.id) ∘ fun e : WebhookEndpoint => e.id) =
            (fun e : WebhookEndpoint => e.id == ep.id) from rfl]
      rw [show enabledEndpointsOf db device =
            db.endpoints.filter (fun e => e.tenantId == device.tenantId && e.enabled)
          from rfl]
      rw [hres]
      by_cases hcond : ep.tenantId = device.tenantId ∧ ep.enabled = true
      · rw [if_pos hcond, if_pos (by simp [hcond.1, hcond.2])]
      · rw [if_neg hcond, if_neg ?_]
        intro hb
        have hb2 : ep.tenantId = device.tenantId ∧ ep.enabled = true := by simpa using hb
        exact hcond hb2
    · intro d hdm
      rw [hd] at hdm
      obtain ⟨hst, hat, hei⟩ := hall d hdm
      have hmm : d.endpointId ∈ (fanOut nextId (enabledEndpointsOf db device)
          (nextId + 1)).1.map (fun d => d.endpointId) :=
        List.mem_map_of_mem _ hdm
      rw [hmap] at hmm
      obtain ⟨ep, hep, hepid⟩ := List.mem_map.mp hmm
      obtain ⟨hepmem, hepcond⟩ := List.mem_filter.mp hep
      have hb2 : ep.tenantId = device.tenantId ∧ ep.enabled = true := by
        simpa using hepcond
      exact ⟨hst, hat, hei, ep, hepmem, hb2.1, hb2.2, hepid.symm⟩
    · rw [hj, hd, hjobs]

/-- Device for the C1 witness. -/
def c1Device : Device := { id := "d1", tenantId := "t1", status := .ONLINE }

/-- Enabled endpoint of tenant t1 for the C1 witness. -/
def c1E1 : WebhookEndpoint :=
  { id := "e1", tenantId := "t1", url := "https://bot.example/hook",
    secret := "s1", enabled := true }

/-- Disabled endpoint of tenant t1 for the C1 witness. -/
def c1E2 : WebhookEndpoint :=
  { id := "e2", tenantId := "t1", url := "https://bot.example/hook2",
    secret := "s2", enabled := false }

/-- Enabled endpoint of another tenant for the C1 witness. -/
def c1E3 : WebhookEndpoint :=
  { id := "e3", tenantId := "t2", url := "https://other.example/hook",
    secret := "s3", enabled := true }

/-- Database slice for the C1 witness. -/
def c1Db : Db := { devices := [c1Device], endpoints := [c1E1, c1E2, c1E3] }

/-- Inbound text envelope for the C1 witness (scenario S1). -/
def c1Msg : WebMessageInfo :=
  { key := some { id := some "m1", remoteJid := some "5491122223333@s.whatsapp.net" },
    message := some { conversation := some "hola" },
    messageTimestamp := some 1736900000 }

/-- The Event the pipeline persists for the C1 witness message. -/
def c1Event : EventRow :=
  { id := 0, tenantId := "t1", deviceId := "d1", type := "message.inbound",
    normalizedJson := { base := normalizeInboundMessage c1Msg none,
                        decryptionFailed := false },
    rawJson := c1Msg }

/-- Witness for C1: the enabled same-tenant endpoint gets exactly one
delivery, the disabled one and the foreign-tenant one get none, and the
jobs mirror the deliveries. -/
theorem fanout_C1_witness :
    ((processInboundMessage c1Device (enabledEndpointsOf c1Db c1Device) none none
        c1Msg 0).1.deliveries.filter (fun d => d.endpointId == c1E1.id)).length = 1 ∧
    ((processInboundMessage c1Device (enabledEndpointsOf c1Db c1Device) none none
        c1Msg 0).1.deliveries.filter (fun d => d.endpointId == c1E2.id)).length = 0 ∧
    ((processInboundMessage c1Device (enabledEndpointsOf c1Db c1Device) none none
        c1Msg 0).1.deliveries.filter (fun d => d.endpointId == c1E3.id)).length = 0 ∧
    ((processInboundMessage c1Device (enabledEndpointsOf c1Db c1Device) none none
        c1Msg 0).1.webhookJobs =
      (processInboundMessage c1Device (enabledEndpointsOf c1Db c1Device) none none
        c1Msg 0).1.deliveries.map
        (fun d => { deliveryId := d.id, attempts := 5,
                    backoffExponentialDelayMs := 1000 })) :=
  ⟨(((fanout_C1 c1Db c1Device none none c1Msg 0 (by decide) c1Event
      (by decide)).2.2.1 c1E1 (by decide)).trans (by decide)),
   (((fanout_C1 c1Db c1Device none none c1Msg 0 (by decide) c1Event
      (by decide)).2.2.1 c1E2 (by decide)).trans (by decide)),
   (((fanout_C1 c1Db c1Device none none c1Msg 0 (by decide) c1Event
      (by decide)).2.2.1 c1E3 (by decide)).trans (by decide)),
   (fanout_C1 c1Db c1Device none none c1Msg 0 (by decide) c1Event
      (by decide)).2.2.2.2⟩

theorem jsOr_getD_ne {t : Option String} {r : String} (hr : r ≠ "") :
    (jsOr t (some r)).getD "" ≠ "" := by
  unfold jsOr
  by_cases ht : strTruthy t = true
  · rw [if_pos ht]
    cases t with
    | none => simp [strTruthy] at ht
    | some s => simpa [strTruthy] using ht
  · rw [if_neg ht]
    simpa using hr

theorem normalize_fromAddr_ne (msg : WebMessageInfo) (k : MessageKey) (r : String)
    (sockUserId : Option String)
    (hk : msg.key = some k) (hr : k.remoteJid = some r) (hrne : r ≠ "") :
    (normalizeInboundMessage msg sockUserId).fromAddr ≠ "" := by
  have hro : msg.key.bind (fun x => x.remoteJid) = some r := by
    rw [hk]; simpa using hr
  simp only [normalizeInboundMessage, hro]
  generalize (if isOneToOneOf msg && strTruthy (senderPnOf msg) then senderPnOf msg
    else chatIdOf msg) = t
  have hrj := jsOr_getD_ne (t := t) hrne
  by_cases hnu : jidNormalizedUser ((jsOr t (some r)).getD "") = ""
  · simp [hnu, hrj]
  · simp [hnu]

theorem appendEffects_empty (e : MsgEffects) : appendEffects {} e = e := by
  cases e with
  | mk ev de wj ar aj ls sg => cases sg <;> simp [appendEffects]

theorem handleMessagesUpsert_single (db : Db) (deviceId : String)
    (sockUserId ackText : Option String) (msg : WebMessageInfo) (nextId : Nat)
    (device : Device) (hdev : findDevice db deviceId = some device) :
    handleMessagesUpsert db deviceId sockUserId ackText [msg] nextId =
      processInboundMessage device (enabledEndpointsOf db device) ackText
        sockUserId msg nextId := by
  unfold handleMessagesUpsert
  rw [hdev]
  rcases hp : processInboundMessage device (enabledEndpointsOf db device) ackText
      sockUserId msg nextId with ⟨eff, n⟩
  simp [List.foldl, hp, appendEffects_empty]

theorem processInboundMessage_stub_match
    (device : Device) (endpoints : List WebhookEndpoint)
    (ackText sockUserId : Option String) (msg : WebMessageInfo) (nextId : Nat)
    (k : MessageKey) (r : String)
    (hk : msg.key = some k) (hr : k.remoteJid = some r) (h1 : r ≠ "")
    (h2 : k.fromMe = false) (h3 : r ≠ "status@broadcast")
    (h4 : (normalizeInboundMessage msg sockUserId).content.type = .stub)
    (h5 : decryptionFailureMatch
      ((normalizeInboundMessage msg sockUserId).content.text.getD "") = true) :
    processInboundMessage device endpoints ackText sockUserId msg nextId =
      ({ events := [{ id := nextId, tenantId := device.tenantId,
                      deviceId := device.id, type := "message.inbound",
                      normalizedJson := { base := normalizeInboundMessage msg sockUserId,
                                          decryptionFailed := true },
                      rawJson := msg }],
         deliveries := (fanOut nextId endpoints (nextId + 1)).1,
         webhookJobs := (fanOut nextId endpoints (nextId + 1)).2.1,
         lastSeenUpdates := 1,
         signal := some { remoteJid := r, senderPn := k.senderPn } },
       (fanOut nextId endpoints (nextId + 1)).2.2) := by
  have hfrom : ((normalizeInboundMessage msg sockUserId).fromAddr != "") = true := by
    simpa using normalize_fromAddr_ne msg k r sockUserId hk hr h1
  unfold processInboundMessage
  rw [hk]
  dsimp only
  rw [hr]
  dsimp only
  rw [if_neg h1]
  simp only [h2, Bool.false_eq_true, if_false]
  rw [if_neg h3, if_pos h4, if_pos h5, if_pos hfrom]

theorem processInboundMessage_stub_skip
    (device : Device) (endpoints : List WebhookEndpoint)
    (ackText sockUserId : Option String) (msg : WebMessageInfo) (nextId : Nat)
    (k : MessageKey) (r : String)
    (hk : msg.key = some k) (hr : k.remoteJid = some r) (h1 : r ≠ "")
    (h2 : k.fromMe = false) (h3 : r ≠ "status@broadcast")
    (h4 : (normalizeInboundMessage msg sockUserId).content.type = .stub)
    (h5 : decryptionFailureMatch
      ((normalizeInboundMessage msg sockUserId).content.text.getD "") = false) :
    processInboundMessage device endpoints ackText sockUserId msg nextId =
      ({ lastSeenUpdates := 1 }, nextId) := by
  unfold processInboundMessage
  rw [hk]
  dsimp only
  rw [hr]
  dsimp only
  rw [if_neg h1]
  simp only [h2, Bool.false_eq_true, if_false]
  rw [if_neg h3, if_pos h4, if_neg (by simp [h5])]

/-- C3: a processable inbound stub whose text matches a decryption-failure
pattern (case-insensitive) yields exactly one message.inbound Event whose
normalizedJson is the normalized message with decryptionFailed true and
whose rawJson is the envelope verbatim, with the webhook fan-out and jobs
of that Event, lastSeenAt bookkeeping, and the reconcile signal carrying
remoteJid and senderPn; the session manager then clears that sender's
session keys, tears the socket down and schedules connect 5000 ms later
when a live non-closing entry exists. Any other stub only updates
lastSeenAt and creates no Event, delivery or job. -/
theorem stubReconcile_C3 :
    ∀ (db : Db) (deviceId : String) (device : Device)
      (sessions : List (String × SessionEntry)) (p : String × SessionEntry)
      (sockUserId ackText : Option String) (msg : WebMessageInfo)
      (k : MessageKey) (r : String) (nextId : Nat),
      findDevice db deviceId = some device →
      msg.key = some k → k.remoteJid = some r → r ≠ "" → k.fromMe = false →
      r ≠ "status@broadcast" →
      (normalizeInboundMessage msg sockUserId).content.type = .stub →
      (decryptionFailureMatch
          ((normalizeInboundMessage msg sockUserId).content.text.getD "") = true →
        (handleMessagesUpsert db deviceId sockUserId ackText [msg] nextId).1 =
          { events := [{ id := nextId, tenantId := device.tenantId,
                         deviceId := device.id, type := "message.inbound",
                         normalizedJson :=
                           { base := normalizeInboundMessage msg sockUserId,
                             decryptionFailed := true },
                         rawJson := msg }],
            deliveries :=
              (fanOut nextId (enabledEndpointsOf db device) (nextId + 1)).1,
            webhookJobs :=
              (fanOut nextId (enabledEndpointsOf db device) (nextId + 1)).2.1,
            lastSeenUpdates := 1,
            signal := some { remoteJid := r, senderPn := k.senderPn } } ∧
        (sessions.find? (fun e => e.1 == deviceId) = some p → p.2.closing = false →
          managerReaction sessions deviceId
              (handleMessagesUpsert db deviceId sockUserId ackText [msg] nextId).1.signal =
            { clearedJids := some ((r :: k.senderPn.toList).filter (fun j => j != "")),
              socketTornDown := true, reconnectDelayMs := some 5000 })) ∧
      (decryptionFailureMatch
          ((normalizeInboundMessage msg sockUserId).content.text.getD "") = false →
        (handleMessagesUpsert db deviceId sockUserId ackText [msg] nextId).1 =
          { lastSeenUpdates := 1 }) := by
  intro db deviceId device sessions p sockUserId ackText msg k r nextId
  intro hdev hk hr h1 h2 h3 h4
  constructor
  · intro h5
    have heq := processInboundMessage_stub_match device (enabledEndpointsOf db device)
      ackText sockUserId msg nextId k r hk hr h1 h2 h3 h4 h5
    have hh := handleMessagesUpsert_single db deviceId sockUserId ackText msg nextId
      device hdev
    constructor
    · rw [hh, heq]
    · intro hfind hclosing
      rw [hh, heq]
      simp [managerReaction, hfind, hclosing]
  · intro h5
    have heq := processInboundMessage_stub_skip device (enabledEndpointsOf db device)
      ackText sockUserId msg nextId k r hk hr h1 h2 h3 h4 h5
    have hh := handleMessagesUpsert_single db deviceId sockUserId ackText msg nextId
      device hdev
    rw [hh, heq]

/-- Device for the C3 witness. -/
def c3Device : Device := { id := "d1", tenantId := "t1", status := .ONLINE }

/-- Enabled endpoint for the C3 witness. -/
def c3Endpoint : WebhookEndpoint :=
  { id := "e1", tenantId := "t1", url := "https://bot.example/hook",
    secret := "s1", enabled := true }

/-- Database slice for the C3 witness. -/
def c3Db : Db := { devices := [c3Device], endpoints := [c3Endpoint] }

/-- Decryption-failure stub envelope for the C3 witness (scenario S2). -/
def c3Msg : WebMessageInfo :=
  { key := some { id := some "m2", remoteJid := some "67229240574002@lid",
                  senderPn := some "5216183610698@s.whatsapp.net" },
    messageStubType := some 2,
    messageStubParameters := some ["No matching sessions found for message"] }

/-- Live session map for the C3 witness. -/
def c3Sessions : List (String × SessionEntry) := [("d1", { closing := false })]

/-- Witness for C3 at the concrete stub of scenario S2: the signal carries
the jids, one decryptionFailed Event is persisted with the raw envelope,
and the manager clears both jids, tears the socket down and reconnects at
5000 ms. -/
theorem stubReconcile_C3_witness :
    (handleMessagesUpsert c3Db "d1" none none [c3Msg] 0).1.signal =
      some { remoteJid := "67229240574002@lid",
             senderPn := some "5216183610698@s.whatsapp.net" } ∧
    (handleMessagesUpsert c3Db "d1" none none [c3Msg] 0).1.events =
      [{ id := 0, tenantId := "t1", deviceId := "d1", type := "message.inbound",
         normalizedJson := { base := normalizeInboundMessage c3Msg none,
                             decryptionFailed := true },
         rawJson := c3Msg }] ∧
    managerReaction c3Sessions "d1"
        (handleMessagesUpsert c3Db "d1" none none [c3Msg] 0).1.signal =
      { clearedJids := some ["67229240574002@lid", "5216183610698@s.whatsapp.net"],
        socketTornDown := true, reconnectDelayMs := some 5000 } := by
  have h := (stubReconcile_C3 c3Db "d1" c3Device c3Sessions
    ("d1", { closing := false }) none none c3Msg
    { id := some "m2", remoteJid := some "67229240574002@lid",
      senderPn := some "5216183610698@s.whatsapp.net" }
    "67229240574002@lid" 0
    (by decide) rfl rfl (by decide) rfl (by decide) (by decide)).1 (by decide)
  refine ⟨?_, ?_, ?_⟩
  · rw [h.1]
  · rw [h.1]
    rfl
  · exact (h.2 rfl rfl).trans (by decide)
